import Mathlib

/-!
Shallow embedding of `src/appcast_scraper.py` (appcast-scraper repository)
and proofs about its post-processing transforms, date-window arithmetic,
report gating and error handling.

Python values flowing through the pipeline (results of `resp.json()`) are
modelled by the closed tagged variant `PyVal`.  Python `float`s are finite
IEEE-754 binary64 numbers; every such number is exactly a dyadic rational
`m / 2^k`, so a float leaf carries that exact value as a `Dyadic` pair.
Python `bool` is a subclass of `int`, which matters for the
`isinstance(obj, (int, float))` test in `localize_decimals_for_de`.
-/

/-- Exact value of a finite IEEE-754 binary64 number: `num / 2 ^ exp`. -/
structure Dyadic where
  num : ℤ
  exp : ℕ
deriving DecidableEq

/-- The rational value `num / 2 ^ exp` represented by a `Dyadic`. -/
def Dyadic.val (d : Dyadic) : ℚ := (d.num : ℚ) / 2 ^ d.exp

/-- A Python/JSON-like value: `None`, `bool`, `int`, `float` (exact dyadic
value of the binary64 number), `str`, `list`, or insertion-ordered `dict`. -/
inductive PyVal where
  | null : PyVal
  | bool : Bool → PyVal
  | int : Int → PyVal
  | float : Dyadic → PyVal
  | str : String → PyVal
  | list : List PyVal → PyVal
  | dict : List (String × PyVal) → PyVal

/-- `100 * (num / 2^exp)` rounded to the nearest integer, ties to even:
the hundredths count CPython's correctly-rounded float→decimal conversion
produces when formatting a binary64 value with `f"{x:.2f}"`.  Working with
the scaled integers `t = 100 * num` and `D = 2^exp`, the floor is `t.fdiv D`
and the fractional part compares to `1/2` as `2 * (t - f * D)` compares
to `D`. -/
def roundHundredths (d : Dyadic) : ℤ :=
  let t := 100 * d.num
  let D : ℤ := 2 ^ d.exp
  let f := t.fdiv D
  let r2 := 2 * (t - f * D)
  if r2 < D then f
  else if D < r2 then f + 1
  else if f % 2 = 0 then f else f + 1

/-- Model of `f"{obj:.2f}"` for a finite binary64 (or `int`, via
exponent `0`) of exact value `d`: the decimal string with exactly two
fractional digits, correctly rounded with ties to even, and a leading
minus sign exactly when the value is negative (CPython keeps the sign,
e.g. `f"{-0.004:.2f}"` is `"-0.00"`). -/
def pyFormatTwoDec (d : Dyadic) : String :=
  let n := roundHundredths d
  let a := n.natAbs
  (if d.num < 0 then "-" else "") ++ toString (a / 100) ++ "." ++
    (if a % 100 < 10 then "0" else "") ++ toString (a % 100)

/-- Model of Python `s.rstrip(c)` for a single strip character. -/
def pyRstrip (c : Char) (s : String) : String :=
  ⟨(s.data.reverse.dropWhile (fun x => x = c)).reverse⟩

/-- Model of Python `s.replace(".", ",")`. -/
def replaceDotComma (s : String) : String :=
  ⟨s.data.map (fun c => if c = '.' then ',' else c)⟩

/-- The numeric branch of `localize_decimals_for_de` (lines 35–40 of the
source): `s = f"{obj:.2f}"; if "." in s: s = s.rstrip("0").rstrip(".");
return s.replace(".", ",")`. -/
def deNumberString (d : Dyadic) : String :=
  let s := pyFormatTwoDec d
  let s := if s.data.contains '.' then pyRstrip '.' (pyRstrip '0' s) else s
  replaceDotComma s

mutual

/-- Embedding of `localize_decimals_for_de` (lines 22–41).  The Python
`isinstance(obj, (int, float))` test also catches `bool` (a subclass of
`int`), with `True` formatting as `1.00` and `False` as `0.00`; the
explicit `bool` arm below reproduces that.  Dict comprehension and list
comprehension preserve order, modelled by the two mutual helpers. -/
def localize_decimals_for_de : PyVal → PyVal
  | .dict kvs => .dict (localizeDict kvs)
  | .list vs => .list (localizeList vs)
  | .bool b => .str (deNumberString ⟨if b then 1 else 0, 0⟩)
  | .int n => .str (deNumberString ⟨n, 0⟩)
  | .float d => .str (deNumberString d)
  | .str s => .str s
  | .null => .null

/-- `[localize_decimals_for_de(v) for v in obj]`. -/
def localizeList : List PyVal → List PyVal
  | [] => []
  | v :: vs => localize_decimals_for_de v :: localizeList vs

/-- `{k: localize_decimals_for_de(v) for k, v in obj.items()}`. -/
def localizeDict : List (String × PyVal) → List (String × PyVal)
  | [] => []
  | (k, v) :: kvs => (k, localize_decimals_for_de v) :: localizeDict kvs

end

/-- Exact value of the binary64 double denoted by the Python literal
`5.83`: `3281998228446249 / 2^49` (the IEEE-754 nearest double to 5.83;
cf. `(5.83).as_integer_ratio()`). -/
def dbl583 : Dyadic := ⟨3281998228446249, 49⟩

/-- Exact value of the binary64 double denoted by the Python literal
`0.005`: `5764607523034235 / 2^60`.  This value is strictly greater than
`1/200`, which is why `f"{0.005:.2f}"` is `"0.01"`, not `"0.00"`. -/
def dbl0005 : Dyadic := ⟨5764607523034235, 60⟩


/-!
## Calendar dates and `parse_date`

`datetime.strptime(value[:10], "%Y-%m-%d").date()` succeeds exactly when
the first ten characters of `value` match CPython's `_strptime` pattern
`(?P<Y>\d\d\d\d)-(?P<m>1[0-2]|0[1-9]|[1-9])-(?P<d>3[0-1]|[1-2]\d|0[1-9]|[1-9]| [1-9])`
with nothing left over, and the named fields form a real calendar date
(`datetime(year, month, day)` additionally requires `1 <= year`).
-/

/-- A Python `datetime.date`: year, month, day. -/
structure PyDate where
  year : ℕ
  month : ℕ
  day : ℕ
deriving DecidableEq

/-- Python `date` comparison `a <= b` (lexicographic on (year, month, day)). -/
def pyDateLE (a b : PyDate) : Prop :=
  a.year < b.year ∨ (a.year = b.year ∧
    (a.month < b.month ∨ (a.month = b.month ∧ a.day ≤ b.day)))

/-- Python `date` comparison `a < b`. -/
def pyDateLT (a b : PyDate) : Prop :=
  a.year < b.year ∨ (a.year = b.year ∧
    (a.month < b.month ∨ (a.month = b.month ∧ a.day < b.day)))

instance (a b : PyDate) : Decidable (pyDateLE a b) := by
  unfold pyDateLE; infer_instance

instance (a b : PyDate) : Decidable (pyDateLT a b) := by
  unfold pyDateLT; infer_instance

/-- `EARLIEST_DAILY_DATE = datetime(2025, 11, 17).date()` (line 19). -/
def EARLIEST_DAILY_DATE : PyDate := ⟨2025, 11, 17⟩

/-- Python's leap-year rule (`calendar.isleap`, also used by
`datetime`'s validity check). -/
def isleap (y : ℕ) : Bool :=
  decide (y % 4 = 0) && (decide (y % 100 ≠ 0) || decide (y % 400 = 0))

/-- `calendar.mdays` with the dummy leading 0: days per month in a
non-leap year, indexed 1–12. -/
def mdays : List ℕ := [0, 31, 28, 31, 30, 31, 30, 31, 31, 30, 31, 30, 31]

/-- Days in a month (`calendar.monthrange(year, month)[1]`, and the bound
`datetime(year, month, day)` checks `day` against). -/
def days_in_month (y m : ℕ) : ℕ :=
  mdays.getD m 0 + (if m = 2 && isleap y then 1 else 0)

def isDigit (c : Char) : Bool := decide ('0' ≤ c) && decide (c ≤ '9')

def digitVal (c : Char) : ℕ := c.toNat - 48

/-- The `%m` field regex `1[0-2]|0[1-9]|[1-9]`: one digit `1`–`9`, or two
digits making 01–09 or 10–12. -/
def monthField : List Char → Option ℕ
  | [c] => if decide ('1' ≤ c) && decide (c ≤ '9') then some (digitVal c) else none
  | [c1, c2] =>
    if (decide (c1 = '1') && decide ('0' ≤ c2) && decide (c2 ≤ '2')) ||
       (decide (c1 = '0') && decide ('1' ≤ c2) && decide (c2 ≤ '9')) then
      some (10 * digitVal c1 + digitVal c2)
    else none
  | _ => none

/-- The `%d` field regex `3[0-1]|[1-2]\d|0[1-9]|[1-9]| [1-9]`: one digit
`1`–`9`, two digits making 01–31, or a space followed by a digit `1`–`9`. -/
def dayField : List Char → Option ℕ
  | [c] => if decide ('1' ≤ c) && decide (c ≤ '9') then some (digitVal c) else none
  | [c1, c2] =>
    if decide (c1 = '3') && (decide (c2 = '0') || decide (c2 = '1')) then
      some (30 + digitVal c2)
    else if (decide (c1 = '1') || decide (c1 = '2')) && isDigit c2 then
      some (10 * digitVal c1 + digitVal c2)
    else if decide (c1 = '0') && decide ('1' ≤ c2) && decide (c2 ≤ '9') then
      some (digitVal c2)
    else if decide (c1 = ' ') && decide ('1' ≤ c2) && decide (c2 ≤ '9') then
      some (digitVal c2)
    else none
  | _ => none

/-- The `%Y` field regex `\d\d\d\d`: exactly four digits. -/
def yearField : List Char → Option ℕ
  | [c1, c2, c3, c4] =>
    if isDigit c1 && isDigit c2 && isDigit c3 && isDigit c4 then
      some (1000 * digitVal c1 + 100 * digitVal c2 + 10 * digitVal c3 + digitVal c4)
    else none
  | _ => none

/-- Embedding of the inner `parse_date` helper (lines 210–215) applied to
a string: take the first ten characters, match them in full against the
`%Y-%m-%d` pattern, and build the date, which `datetime` accepts exactly
when `1 ≤ year` and `1 ≤ day ≤ days_in_month`.  (Month/day field ranges
are already enforced by the regex.)  Any failure is caught and mapped
to `None`. -/
def parseDate10 (s : String) : Option PyDate :=
  match (s.take 10).data.splitOn '-' with
  | [ys, ms, ds] =>
    match yearField ys, monthField ms, dayField ds with
    | some y, some m, some d =>
      if decide (1 ≤ y) && decide (1 ≤ d) && decide (d ≤ days_in_month y m) then
        some ⟨y, m, d⟩
      else none
    | _, _, _ => none
  | _ => none

/-- `parse_date` on the raw dict value: slicing (`value[:10]`) and
`strptime` both raise `TypeError` on non-string values, which the inner
`try/except` turns into `None`; on strings it parses the 10-character
prefix. -/
def parse_date : PyVal → Option PyDate
  | .str s => parseDate10 s
  | _ => none


/-!
## `filter_tiles_by_day_from_earliest` (lines 204–258)
-/

/-- Python `"date" in item` for a dict. -/
def dictHasKey (kvs : List (String × PyVal)) (k : String) : Bool :=
  kvs.any (fun kv => kv.1 == k)

/-- Python `item.get(k)`: the value stored under `k`, if any.  (Python
dicts have unique keys; on the model's lists the first binding wins.) -/
def dictGet (kvs : List (String × PyVal)) (k : String) : Option PyVal :=
  (kvs.find? (fun kv => kv.1 == k)).map (fun kv => kv.2)

/-- Python `item.get(k, dflt)`. -/
def dictGetD (kvs : List (String × PyVal)) (k : String) (dflt : PyVal) : PyVal :=
  match dictGet kvs k with
  | some v => v
  | none => dflt

/-- One iteration of the filtering loop (both the top-level-list loop,
lines 220–226, and the identical per-key loop, lines 242–248): a
dict-shaped item with a `"date"` key is kept iff its date value parses
and is on/after `EARLIEST_DAILY_DATE`; any other item is appended
unconditionally. -/
def keepsItem (item : PyVal) : Bool :=
  match item with
  | .dict kvs =>
    if dictHasKey kvs "date" then
      match parse_date (dictGetD kvs "date" (.str "")) with
      | some d => decide (pyDateLE EARLIEST_DAILY_DATE d)
      | none => false
    else true
  | _ => true

/-- The filtering loop over a list of items (`filtered` / `new_list`
accumulation): items are examined in order and kept or dropped per
`keepsItem`. -/
def filterDayList : List PyVal → List PyVal
  | [] => []
  | item :: rest =>
    if keepsItem item then item :: filterDayList rest else filterDayList rest

/-- `next((v for v in val if isinstance(v, dict)), None)` (line 238):
the first dict-shaped element of the list, if any. -/
def firstDictSample : List PyVal → Option (List (String × PyVal))
  | [] => none
  | .dict kvs :: _ => some kvs
  | _ :: rest => firstDictSample rest

/-- The dict-case gate `if sample and "date" in sample` (line 239):
there is a dict-shaped element, it is truthy (non-empty — an empty dict
is falsy in Python) and it has a `"date"` key.  (The non-emptiness test
is redundant given the key test, but is kept for fidelity.) -/
def sampleGate (val : List PyVal) : Bool :=
  match firstDictSample val with
  | some kvs => !(kvs.isEmpty) && dictHasKey kvs "date"
  | none => false

/-- The per-key transformation of the dict case (lines 236–254): a value
that is a non-empty list whose first dict-shaped element carries a
`"date"` key is replaced by its filtered form; every other value is left
untouched. -/
def perKeyFilter (v : PyVal) : PyVal :=
  match v with
  | .list val =>
    if !(val.isEmpty) && sampleGate val then .list (filterDayList val) else .list val
  | v => v

/-- Embedding of `filter_tiles_by_day_from_earliest` (lines 204–258).
A top-level list is filtered by the loop; a top-level dict keeps its keys
in order and has each value rewritten by `perKeyFilter` (the in-place
`data[key] = new_list` assignments); anything else is returned
unchanged.  (The `modified` flag only selects between two `return data`
statements yielding the same value.) -/
def filter_tiles_by_day_from_earliest : PyVal → PyVal
  | .list l => .list (filterDayList l)
  | .dict kvs => .dict (kvs.map (fun kv => (kv.1, perKeyFilter kv.2)))
  | v => v


/-!
## Date-window arithmetic
-/

/-- Python `f"{n:02d}"`. -/
def pad2 (n : ℕ) : String := if n < 10 then "0" ++ toString n else toString n

/-- Embedding of `month_start_end` (lines 50–56), after
`year, month = map(int, selected_month.split("-"))`: the incidental
string-splitting is elided and the function is modelled on the parsed
`(year, month)` pair.  `calendar.monthrange(year, month)[1]` is
`days_in_month`; the year is formatted with no padding (`f"{year}-…"`). -/
def month_start_end (year month : ℕ) : String × String :=
  let last_day := days_in_month year month
  (toString year ++ "-" ++ pad2 month ++ "-01",
   toString year ++ "-" ++ pad2 month ++ "-" ++ pad2 last_day)

/-- `date.weekday()` for the day with proleptic-Gregorian ordinal `n`
(`date.toordinal()`): CPython computes `(toordinal + 6) % 7`, with
Monday = 0.  Days are modelled by their ordinals, so `timedelta(days=k)`
is `k` and date subtraction is integer subtraction. -/
def pyWeekday (n : ℤ) : ℤ := (n + 6) % 7

/-- Embedding of `last_calendar_week_range` (lines 59–71) on the ordinal
`today` of the current UTC date: `this_monday = today -
timedelta(days=today.weekday())`, and the window is
`(this_monday - 7, this_monday - 1)`.  The final `strftime("%Y-%m-%d")`
rendering is elided; the window is returned as a pair of ordinals. -/
def last_calendar_week_range (today : ℤ) : ℤ × ℤ :=
  let this_monday := today - pyWeekday today
  (this_monday - 7, this_monday - 1)

/-!
## The by_day gate in `fetch_all_reports` (lines 450–489) and the webhook
-/

/-- Python `max(a, b)` on dates: `b` if `a < b`, else `a`. -/
def pyDateMax (a b : PyDate) : PyDate := if pyDateLT a b then b else a

/-- The by_day window decision (lines 451–457): `daily_start =
max(period_start, EARLIEST_DAILY_DATE)`, `daily_end = period_end`; the
report is fetched with that window iff `daily_start <= daily_end`,
otherwise the entry is skipped (the `else` branch only prints a
diagnostic and raises nothing). -/
def byDayWindow (period_start period_end : PyDate) : Option (PyDate × PyDate) :=
  let daily_start := pyDateMax period_start EARLIEST_DAILY_DATE
  let daily_end := period_end
  if pyDateLE daily_start daily_end then some (daily_start, daily_end) else none

/-- `date.strftime("%Y-%m-%d")` for four-digit years. -/
def fmtDate (d : PyDate) : String :=
  toString d.year ++ "-" ++ pad2 d.month ++ "-" ++ pad2 d.day

/-- The artifacts persisted by the by_day entry (lines 457–489): one
file `by_day_{daily_start}_to_{daily_end}.json` when the window is
fetched, none when the entry is skipped. -/
def byDayArtifacts (period_start period_end : PyDate) : List String :=
  match byDayWindow period_start period_end with
  | some w => ["by_day_" ++ fmtDate w.1 ++ "_to_" ++ fmtDate w.2 ++ ".json"]
  | none => []

/-- Environment lookup: `os.getenv` returns the variable's value or
`None`. -/
def Env : Type := String → Option String

/-- Python `x or y` for optional strings: `y` unless `x` is truthy
(set and non-empty). -/
def pyOrStr (x y : Option String) : Option String :=
  match x with
  | some s => if s = "" then y else some s
  | none => y

/-- Embedding of `get_appcast_hook_url` (lines 261–271): the first truthy
of `os.getenv("appcast_hook")` and `os.getenv("APPCAST_HOOK")`, stripped;
`None` when the result is falsy (unset or empty).  Python `str.strip()`
is modelled by `String.trim`. -/
def get_appcast_hook_url (env : Env) : Option String :=
  match pyOrStr (env "appcast_hook") (env "APPCAST_HOOK") with
  | some s => if s = "" then none else some s.trim
  | none => none

/-- What the single `requests.post(...)` + `raise_for_status()` attempt
does: return a 2xx status, or raise (non-2xx status / network error). -/
inductive PostOutcome where
  | success : ℕ → PostOutcome
  | httpError : ℕ → PostOutcome
  | netError : PostOutcome

/-- `requests.post` followed by `resp.raise_for_status()` (lines 314–315):
ok on 2xx; `HTTPError` or a transport exception otherwise.  All of these
are subclasses of `Exception`. -/
def tryPostOnce : PostOutcome → Except String ℕ
  | .success code => .ok code
  | .httpError code => .error ("HTTPError " ++ toString code)
  | .netError => .error "RequestException"

/-- Observable result of `send_report_to_webhook`: how many POST attempts
were made, and whether an exception escaped to the caller. -/
structure SendResult where
  postAttempts : ℕ
  raised : Bool
deriving DecidableEq

/-- Embedding of `send_report_to_webhook` (lines 274–318): when no hook
URL is configured (`if not hook_url`) it prints a note and returns; when
configured it makes exactly one POST inside `try: … except Exception`,
so both the success path and every failure path return normally. -/
def send_report_to_webhook (env : Env) (outcome : PostOutcome) : SendResult :=
  match get_appcast_hook_url env with
  | none => { postAttempts := 0, raised := false }
  | some hook_url =>
    if hook_url = "" then { postAttempts := 0, raised := false }
    else
      match tryPostOnce outcome with
      | .ok _ => { postAttempts := 1, raised := false }
      | .error _ => { postAttempts := 1, raised := false }

/-!
## `fetch_and_save` (lines 170–201) and catalog sequencing
-/

/-- A report response as seen by `fetch_and_save`: HTTP status, status
text, body text and parsed JSON body. -/
structure HttpResponse where
  status : ℕ
  statusText : String
  bodyText : String
  bodyJson : PyVal

/-- Playwright's `APIResponse.ok`: status in [200, 299]. -/
def respOk (r : HttpResponse) : Bool :=
  decide (200 ≤ r.status) && decide (r.status < 300)

/-- The `RuntimeError` raised by `fetch_and_save` (lines 186–190): it
carries the status, status text and response body text. -/
structure ReportFetchError where
  status : ℕ
  statusText : String
  bodyText : String
deriving DecidableEq

/-- Embedding of `fetch_and_save` (lines 170–201): on a non-ok response
it raises before any file is written; otherwise it post-processes the
parsed body (if a transform was given), writes exactly one artifact named
`out_file`, and returns the (post-processed) data.  The first component
lists the artifacts written. -/
def fetch_and_save (r : HttpResponse) (out_file : String)
    (postprocess : Option (PyVal → PyVal)) :
    List String × Except ReportFetchError PyVal :=
  if respOk r then
    let data := match postprocess with
      | some f => f r.bodyJson
      | none => r.bodyJson
    ([out_file], .ok data)
  else
    ([], .error ⟨r.status, r.statusText, r.bodyText⟩)

/-- The straight-line sequence of `fetch_and_save` calls in
`fetch_all_reports` (lines 357–543), abstracted over the catalog: each
entry is an expected response plus its output file name; entries run in
order, accumulate written artifacts, and a raised `ReportFetchError`
propagates at once, skipping every later entry.  (The interleaved
`send_report_to_webhook` calls write no artifacts and never raise, and
the by_day skip is not an error; neither affects this sequencing.) -/
def runCatalog : List (HttpResponse × String) → List String × Except ReportFetchError Unit
  | [] => ([], .ok ())
  | (r, f) :: rest =>
    match fetch_and_save r f none with
    | (ws, .ok _) =>
      let tail := runCatalog rest
      (ws ++ tail.1, tail.2)
    | (ws, .error e) => (ws, .error e)

/-!
## Theorems
-/

/-- `dbl583` really is the nearest binary64 to 5.83: its value differs
from `583/100` by less than half an ulp (`2⁻⁵⁰`) in the binade of 5.83. -/
theorem dbl583_near : |dbl583.val - 583 / 100| < 1 / 2 ^ 50 := by
  rw [dbl583, Dyadic.val]
  rw [abs_sub_lt_iff]
  norm_num

/-- `dbl0005` really is the nearest binary64 to 0.005, and it lies strictly
above `1/200`: it differs from `1/200` by less than half an ulp (`2⁻⁶¹`)
of its binade. -/
theorem dbl0005_near : 1 / 200 < dbl0005.val ∧ dbl0005.val - 1 / 200 < 1 / 2 ^ 61 := by
  rw [dbl0005, Dyadic.val]
  norm_num

example : deNumberString dbl583 = "5,83" := by decide
example : deNumberString ⟨10, 0⟩ = "10" := by decide
example : deNumberString dbl0005 = "0,01" := by decide
example : deNumberString ⟨1, 0⟩ = "1" := by decide
example : deNumberString ⟨-4611686018427387904, 60⟩ = "-4" := by decide

example : parseDate10 "2025-11-16" = some ⟨2025, 11, 16⟩ := by decide
example : parseDate10 "2025-11-16T00:30:00" = some ⟨2025, 11, 16⟩ := by decide
example : parseDate10 "2025-1-5" = some ⟨2025, 1, 5⟩ := by decide
example : parseDate10 "2025-13-01" = none := by decide
example : parseDate10 "2025-02-30" = none := by decide
example : parseDate10 "0000-01-01" = none := by decide
example : parseDate10 "2024-02-29" = some ⟨2024, 2, 29⟩ := by decide
example : parseDate10 "2025-1-5T0" = none := by decide
example : parseDate10 "garbage" = none := by decide

example :
    filter_tiles_by_day_from_earliest (.list
      [.dict [("date", .str "2025-11-16"), ("v", .int 1)],
       .dict [("date", .str "2025-11-17"), ("v", .int 2)],
       .dict [("date", .str "2025-11-18"), ("v", .int 3)]]) =
    .list
      [.dict [("date", .str "2025-11-17"), ("v", .int 2)],
       .dict [("date", .str "2025-11-18"), ("v", .int 3)]] := by rfl

/-- C5: for every valid month `YYYY-MM` (year 1000–9999, month 1–12),
`month_start_end` returns the first and last calendar day of the month in
`YYYY-MM-DD` format: the start is day `01`, the end carries
`days_in_month`, which is always 28, 29, 30 or 31, is 29 exactly for
leap-year Februaries, is 28 for non-leap Februaries, and is 30 exactly
for April, June, September and November. -/
theorem month_start_end_spec (y m : ℕ) (hy1 : 1000 ≤ y) (hy2 : y ≤ 9999)
    (hm1 : 1 ≤ m) (hm2 : m ≤ 12) :
    (month_start_end y m).1 = toString y ++ "-" ++ pad2 m ++ "-01" ∧
    (month_start_end y m).2 =
      toString y ++ "-" ++ pad2 m ++ "-" ++ pad2 (days_in_month y m) ∧
    (28 ≤ days_in_month y m ∧ days_in_month y m ≤ 31) ∧
    (days_in_month y m = 29 ↔ (m = 2 ∧ isleap y = true)) ∧
    ((m = 2 ∧ isleap y = false) → days_in_month y m = 28) ∧
    (days_in_month y m = 30 ↔ (m = 4 ∨ m = 6 ∨ m = 9 ∨ m = 11)) := by
  refine ⟨rfl, rfl, ?_⟩
  interval_cases m <;>
    cases h : isleap y <;>
      simp [days_in_month, mdays, h]

/-- C5 witness: the statement instantiated at leap-year February 2024. -/
theorem month_start_end_spec_witness :
    (1000 ≤ 2024 ∧ 2024 ≤ 9999 ∧ 1 ≤ 2 ∧ 2 ≤ 12) ∧
    ((month_start_end 2024 2).1 = toString 2024 ++ "-" ++ pad2 2 ++ "-01" ∧
     (month_start_end 2024 2).2 =
       toString 2024 ++ "-" ++ pad2 2 ++ "-" ++ pad2 (days_in_month 2024 2) ∧
     (28 ≤ days_in_month 2024 2 ∧ days_in_month 2024 2 ≤ 31) ∧
     (days_in_month 2024 2 = 29 ↔ (2 = 2 ∧ isleap 2024 = true)) ∧
     ((2 = 2 ∧ isleap 2024 = false) → days_in_month 2024 2 = 28) ∧
     (days_in_month 2024 2 = 30 ↔ (2 = 4 ∨ 2 = 6 ∨ 2 = 9 ∨ 2 = 11))) :=
  ⟨by decide,
   month_start_end_spec 2024 2 (by decide) (by decide) (by decide) (by decide)⟩

/-- C6: for every reference ordinal `today`, `last_calendar_week_range`
returns an exactly-7-day window `[last_monday, last_sunday]` whose start
is the Monday 7 days before the reference week's Monday, whose days fall
on Monday, Tuesday, …, Sunday in order, and which lies entirely before
the reference week's Monday (hence before the reference day itself). -/
theorem last_calendar_week_range_spec (today : ℤ) :
    (last_calendar_week_range today).2 - (last_calendar_week_range today).1 = 6 ∧
    (last_calendar_week_range today).1 = (today - pyWeekday today) - 7 ∧
    pyWeekday ((last_calendar_week_range today).1) = 0 ∧
    pyWeekday ((last_calendar_week_range today).1 + 1) = 1 ∧
    pyWeekday ((last_calendar_week_range today).1 + 2) = 2 ∧
    pyWeekday ((last_calendar_week_range today).1 + 3) = 3 ∧
    pyWeekday ((last_calendar_week_range today).1 + 4) = 4 ∧
    pyWeekday ((last_calendar_week_range today).1 + 5) = 5 ∧
    pyWeekday ((last_calendar_week_range today).2) = 6 ∧
    (last_calendar_week_range today).2 < today - pyWeekday today ∧
    today - pyWeekday today ≤ today := by
  dsimp only [last_calendar_week_range, pyWeekday]
  omega

lemma pyDateLT_iff_not_le (a b : PyDate) : pyDateLT a b ↔ ¬ pyDateLE b a := by
  unfold pyDateLT pyDateLE; omega

lemma pyDateLE_trans (a b c : PyDate) (h1 : pyDateLE a b) (h2 : pyDateLE b c) :
    pyDateLE a c := by
  unfold pyDateLE at *; omega

lemma pyDateMax_le_iff (a b c : PyDate) :
    pyDateLE (pyDateMax a b) c ↔ pyDateLE a c ∧ pyDateLE b c := by
  unfold pyDateMax
  by_cases h : pyDateLT a b
  · rw [if_pos h]
    unfold pyDateLE pyDateLT at *
    omega
  · rw [if_neg h]
    unfold pyDateLE pyDateLT at *
    omega

/-- C7: assuming the window invariant `period_start ≤ period_end`, the
by_day report is fetched iff `period_end` is on/after
`EARLIEST_DAILY_DATE`; when fetched its request window is
`[max(period_start, EARLIEST_DAILY_DATE), period_end]`, and when the
whole window precedes the cutoff the entry yields no window and no
artifact (the skip branch only prints a diagnostic; nothing is raised,
as `byDayWindow`/`byDayArtifacts` are total). -/
theorem by_day_gate_spec (ps pe : PyDate) (h : pyDateLE ps pe) :
    ((byDayWindow ps pe).isSome ↔ pyDateLE EARLIEST_DAILY_DATE pe) ∧
    (∀ w, byDayWindow ps pe = some w → w = (pyDateMax ps EARLIEST_DAILY_DATE, pe)) ∧
    (¬ pyDateLE EARLIEST_DAILY_DATE pe →
      byDayWindow ps pe = none ∧ byDayArtifacts ps pe = []) := by
  have hiff : pyDateLE (pyDateMax ps EARLIEST_DAILY_DATE) pe ↔
      pyDateLE EARLIEST_DAILY_DATE pe := by
    rw [pyDateMax_le_iff]
    exact ⟨fun hx => hx.2, fun hx => ⟨h, hx⟩⟩
  unfold byDayWindow byDayArtifacts
  by_cases hc : pyDateLE (pyDateMax ps EARLIEST_DAILY_DATE) pe
  · rw [hiff] at hc
    simp [byDayWindow, hiff.mpr hc, hc]
  · rw [hiff] at hc
    simp [byDayWindow, fun hx => hc (hiff.mp hx), hc, hiff]

/-- C7 witness: the statement instantiated at the week 2025-12-01 …
2025-12-07, which lies after the cutoff. -/
theorem by_day_gate_spec_witness :
    pyDateLE ⟨2025, 12, 1⟩ ⟨2025, 12, 7⟩ ∧
    (((byDayWindow ⟨2025, 12, 1⟩ ⟨2025, 12, 7⟩).isSome ↔
        pyDateLE EARLIEST_DAILY_DATE ⟨2025, 12, 7⟩) ∧
     (∀ w, byDayWindow ⟨2025, 12, 1⟩ ⟨2025, 12, 7⟩ = some w →
        w = (pyDateMax ⟨2025, 12, 1⟩ EARLIEST_DAILY_DATE, ⟨2025, 12, 7⟩)) ∧
     (¬ pyDateLE EARLIEST_DAILY_DATE ⟨2025, 12, 7⟩ →
        byDayWindow ⟨2025, 12, 1⟩ ⟨2025, 12, 7⟩ = none ∧
        byDayArtifacts ⟨2025, 12, 1⟩ ⟨2025, 12, 7⟩ = [])) :=
  ⟨by decide, by_day_gate_spec ⟨2025, 12, 1⟩ ⟨2025, 12, 7⟩ (by decide)⟩

/-- C9: `send_report_to_webhook` never lets a delivery failure escape.
With neither `appcast_hook` nor `APPCAST_HOOK` set it performs zero POST
attempts and returns normally; in every case it performs at most one
POST attempt (no retry) and no exception propagates to the caller,
whatever the delivery outcome. -/
theorem webhook_best_effort (env : Env) (o : PostOutcome) :
    ((env "appcast_hook" = none ∧ env "APPCAST_HOOK" = none) →
      send_report_to_webhook env o = { postAttempts := 0, raised := false }) ∧
    (send_report_to_webhook env o).postAttempts ≤ 1 ∧
    (send_report_to_webhook env o).raised = false := by
  refine ⟨fun h => ?_, ?_, ?_⟩
  · simp [send_report_to_webhook, get_appcast_hook_url, pyOrStr, h.1, h.2]
  · unfold send_report_to_webhook
    cases get_appcast_hook_url env with
    | none => simp
    | some hook =>
      by_cases hh : hook = ""
      · simp [hh]
      · cases ho : tryPostOnce o <;> simp [hh, ho]
  · unfold send_report_to_webhook
    cases get_appcast_hook_url env with
    | none => simp
    | some hook =>
      by_cases hh : hook = ""
      · simp [hh]
      · cases ho : tryPostOnce o <;> simp [hh, ho]

/-- C9 witness: with an empty environment and a failing network, there is
no POST attempt and no exception. -/
theorem webhook_best_effort_witness :
    ((fun _ => none : Env) "appcast_hook" = none ∧
     (fun _ => none : Env) "APPCAST_HOOK" = none) ∧
    send_report_to_webhook (fun _ => none) .netError =
      { postAttempts := 0, raised := false } ∧
    (send_report_to_webhook (fun _ => none) .netError).postAttempts ≤ 1 ∧
    (send_report_to_webhook (fun _ => none) .netError).raised = false :=
  ⟨⟨rfl, rfl⟩,
   (webhook_best_effort (fun _ => none) .netError).1 ⟨rfl, rfl⟩,
   (webhook_best_effort (fun _ => none) .netError).2⟩

/-- C10: when a report GET returns a non-2xx status, `fetch_and_save`
raises a `ReportFetchError` carrying the status and response text before
writing any artifact, and in the catalog sequence of `fetch_all_reports`
no entry after the failing one executes: the run's artifacts are exactly
those of the earlier (successful) entries and its result is that error. -/
theorem fetch_error_aborts (pre post : List (HttpResponse × String))
    (r : HttpResponse) (f : String)
    (hpre : ∀ p ∈ pre, respOk p.1 = true) (hr : respOk r = false) :
    (fetch_and_save r f none).1 = [] ∧
    (fetch_and_save r f none).2 =
      .error ⟨r.status, r.statusText, r.bodyText⟩ ∧
    runCatalog (pre ++ (r, f) :: post) =
      (pre.map (fun p => p.2), .error ⟨r.status, r.statusText, r.bodyText⟩) := by
  refine ⟨by simp [fetch_and_save, hr], by simp [fetch_and_save, hr], ?_⟩
  induction pre with
  | nil =>
    simp only [List.nil_append, runCatalog, fetch_and_save, hr]
    simp
  | cons p pre ih =>
    obtain ⟨pr, pf⟩ := p
    have hp : respOk pr = true := hpre (pr, pf) (List.mem_cons_self _ _)
    have ih2 := ih (fun q hq => hpre q (List.mem_cons_of_mem _ hq))
    simp [runCatalog, fetch_and_save, hp, ih2]

/-- C10 witness: one successful entry followed by a 500 response and one
more entry; only the first artifact is written and the error carries the
failing status and body. -/
theorem fetch_error_aborts_witness :
    (∀ p ∈ [(⟨200, "OK", "", PyVal.null⟩, "a.json")],
        respOk (Prod.fst p) = true) ∧
    respOk ⟨500, "Internal Server Error", "boom", PyVal.null⟩ = false ∧
    runCatalog
      [(⟨200, "OK", "", PyVal.null⟩, "a.json"),
       (⟨500, "Internal Server Error", "boom", PyVal.null⟩, "b.json"),
       (⟨200, "OK", "", PyVal.null⟩, "c.json")] =
      (["a.json"], .error ⟨500, "Internal Server Error", "boom"⟩) := by
  refine ⟨?_, by decide, ?_⟩
  · intro p hp
    simp only [List.mem_singleton] at hp
    subst hp
    decide
  · exact (fetch_error_aborts
      [(⟨200, "OK", "", PyVal.null⟩, "a.json")]
      [(⟨200, "OK", "", PyVal.null⟩, "c.json")]
      ⟨500, "Internal Server Error", "boom", PyVal.null⟩ "b.json"
      (by intro p hp; simp only [List.mem_singleton] at hp; subst hp; decide)
      (by decide)).2.2

lemma filterDayList_eq_filter (l : List PyVal) :
    filterDayList l = l.filter keepsItem := by
  induction l with
  | nil => rfl
  | cons a l ih => simp [filterDayList, List.filter_cons, ih]

lemma filterDayList_idem (l : List PyVal) :
    filterDayList (filterDayList l) = filterDayList l := by
  simp [filterDayList_eq_filter, List.filter_filter]

lemma perKeyFilter_idem (v : PyVal) :
    perKeyFilter (perKeyFilter v) = perKeyFilter v := by
  cases v with
  | list val =>
    by_cases h : (!val.isEmpty && sampleGate val) = true
    · simp only [perKeyFilter, h, if_true]
      by_cases h2 : (!(filterDayList val).isEmpty && sampleGate (filterDayList val)) = true
      · simp [h2, filterDayList_idem]
      · simp [h2]
    · simp [perKeyFilter, h]
  | null => rfl
  | bool b => rfl
  | int n => rfl
  | float d => rfl
  | str s => rfl
  | dict kvs => rfl

lemma dictGet_eq_getD (kvs : List (String × PyVal)) (k : String) (v dflt : PyVal)
    (h : dictGet kvs k = some v) :
    dictHasKey kvs k = true ∧ dictGetD kvs k dflt = v := by
  constructor
  · unfold dictHasKey
    unfold dictGet at h
    cases hf : kvs.find? (fun kv => kv.1 == k) with
    | none => rw [hf] at h; simp at h
    | some kv =>
      rw [List.any_eq_true]
      refine ⟨kv, List.mem_of_find?_eq_some hf, ?_⟩
      have hp := List.find?_some hf
      simpa using hp
  · unfold dictGetD; rw [h]

/-- C1 counterexample: a dict-shaped record with no `"date"` key at all is
NOT dropped by the sequence case — it passes through — whereas the claim
says every dict-shaped record lacking a usable (present and parseable)
date value is dropped (which would leave the empty list here). -/
theorem dateless_dict_passes_counterexample :
    filter_tiles_by_day_from_earliest (.list [.dict [("x", .int 1)]]) =
      .list [.dict [("x", .int 1)]] ∧
    PyVal.list [.dict [("x", .int 1)]] ≠ .list [] :=
  ⟨rfl, by simp⟩

/-- C1 (amended): the sequence case keeps items, in their original order,
exactly when `keepsItem` holds, where (a) a dict whose `"date"` value
parses (first 10 characters, ISO calendar date) is kept iff that date is
on/after `EARLIEST_DAILY_DATE`, (b) a dict whose `"date"` value is
present but unparseable is dropped, (c) a dict with NO `"date"` key
passes through, as does (d) every non-dict element; and the concrete
three-record example around the cutoff keeps exactly the last two
records, order preserved. -/
theorem filter_list_spec :
    (∀ l, filter_tiles_by_day_from_earliest (.list l) =
      .list (l.filter keepsItem)) ∧
    (∀ kvs v d, dictGet kvs "date" = some v → parse_date v = some d →
      (keepsItem (.dict kvs) = true ↔ pyDateLE EARLIEST_DAILY_DATE d)) ∧
    (∀ kvs v, dictGet kvs "date" = some v → parse_date v = none →
      keepsItem (.dict kvs) = false) ∧
    (∀ kvs, dictHasKey kvs "date" = false → keepsItem (.dict kvs) = true) ∧
    (keepsItem .null = true ∧ (∀ b, keepsItem (.bool b) = true) ∧
     (∀ n, keepsItem (.int n) = true) ∧ (∀ d, keepsItem (.float d) = true) ∧
     (∀ s, keepsItem (.str s) = true) ∧ (∀ l, keepsItem (.list l) = true)) ∧
    filter_tiles_by_day_from_earliest (.list
      [.dict [("date", .str "2025-11-16"), ("v", .int 1)],
       .dict [("date", .str "2025-11-17"), ("v", .int 2)],
       .dict [("date", .str "2025-11-18"), ("v", .int 3)]]) =
    .list
      [.dict [("date", .str "2025-11-17"), ("v", .int 2)],
       .dict [("date", .str "2025-11-18"), ("v", .int 3)]] := by
  refine ⟨?_, ?_, ?_, ?_, ?_, by rfl⟩
  · intro l
    simp [filter_tiles_by_day_from_earliest, filterDayList_eq_filter]
  · intro kvs v d hget hparse
    obtain ⟨hkey, hgetd⟩ := dictGet_eq_getD kvs "date" v (.str "") hget
    simp [keepsItem, hkey, hgetd, hparse]
  · intro kvs v hget hparse
    obtain ⟨hkey, hgetd⟩ := dictGet_eq_getD kvs "date" v (.str "") hget
    simp [keepsItem, hkey, hgetd, hparse]
  · intro kvs hkey
    simp [keepsItem, hkey]
  · exact ⟨rfl, fun _ => rfl, fun _ => rfl, fun _ => rfl, fun _ => rfl, fun _ => rfl⟩

/-- C1 witness: the characterization applied to a concrete dict whose
date parses to 2025-11-20 (kept) and to one whose date is garbage
(dropped). -/
theorem filter_list_spec_witness :
    dictGet [("date", PyVal.str "2025-11-20")] "date" = some (.str "2025-11-20") ∧
    parse_date (.str "2025-11-20") = some ⟨2025, 11, 20⟩ ∧
    (keepsItem (.dict [("date", PyVal.str "2025-11-20")]) = true ↔
      pyDateLE EARLIEST_DAILY_DATE ⟨2025, 11, 20⟩) ∧
    dictGet [("date", PyVal.str "soon")] "date" = some (.str "soon") ∧
    parse_date (.str "soon") = none ∧
    keepsItem (.dict [("date", PyVal.str "soon")]) = false := by
  refine ⟨by rfl, by rfl, ?_, by rfl, by rfl, ?_⟩
  · exact filter_list_spec.2.1 [("date", PyVal.str "2025-11-20")]
      (.str "2025-11-20") ⟨2025, 11, 20⟩ rfl rfl
  · exact filter_list_spec.2.2.1 [("date", PyVal.str "soon")]
      (.str "soon") rfl rfl

/-- C2: `filter_tiles_by_day_from_earliest` is idempotent — applying it
twice (same fixed cutoff `EARLIEST_DAILY_DATE`) yields a value
structurally identical to applying it once, for every JSON-like value. -/
theorem filter_tiles_idempotent (v : PyVal) :
    filter_tiles_by_day_from_earliest (filter_tiles_by_day_from_earliest v) =
      filter_tiles_by_day_from_earliest v := by
  cases v with
  | list l =>
    simp [filter_tiles_by_day_from_earliest, filterDayList_idem]
  | dict kvs =>
    simp only [filter_tiles_by_day_from_earliest, List.map_map]
    refine congrArg PyVal.dict (List.map_congr_left ?_)
    intro kv _
    simp [Function.comp, perKeyFilter_idem]
  | null => rfl
  | bool b => rfl
  | int n => rfl
  | float d => rfl
  | str s => rfl

/-- C8 counterexample: in the mapping case the per-key filter is gated on
the FIRST dict-shaped element of the list carrying a `"date"` key.  Here
the first dict lacks `"date"`, so the list under `"k"` is left untouched,
while the sequence-case filter would drop its second record (date
2020-01-01, before the cutoff) — so the claimed equality fails. -/
theorem dict_gate_counterexample :
    filter_tiles_by_day_from_earliest (.dict [("k", .list
      [.dict [("a", .int 1)], .dict [("date", .str "2020-01-01")]])]) =
    .dict [("k", .list
      [.dict [("a", .int 1)], .dict [("date", .str "2020-01-01")]])] ∧
    filter_tiles_by_day_from_earliest (.list
      [.dict [("a", .int 1)], .dict [("date", .str "2020-01-01")]]) =
      .list [.dict [("a", .int 1)]] ∧
    PyVal.list [.dict [("a", .int 1)]] ≠
      .list [.dict [("a", .int 1)], .dict [("date", .str "2020-01-01")]] :=
  ⟨rfl, rfl, by simp⟩

/-- C8 (amended): the mapping case rewrites each key independently via
`perKeyFilter`; a list value is rewritten exactly as the top-level
sequence case would rewrite it IF it is non-empty and its first
dict-shaped element has a `"date"` key, and is left completely unchanged
otherwise (in particular when an earlier dict-shaped element lacks
`"date"`, or the value is not a list). -/
theorem dict_case_per_key_spec :
    (∀ kvs, filter_tiles_by_day_from_earliest (.dict kvs) =
      .dict (kvs.map (fun kv => (kv.1, perKeyFilter kv.2)))) ∧
    (∀ l, l ≠ [] → sampleGate l = true →
      perKeyFilter (.list l) = filter_tiles_by_day_from_earliest (.list l)) ∧
    (∀ l, sampleGate l = false → perKeyFilter (.list l) = .list l) ∧
    (∀ b, perKeyFilter (.bool b) = .bool b) ∧
    (∀ n, perKeyFilter (.int n) = .int n) ∧
    (∀ d, perKeyFilter (.float d) = .float d) ∧
    (∀ s, perKeyFilter (.str s) = .str s) ∧
    (∀ kvs, perKeyFilter (.dict kvs) = .dict kvs) ∧
    perKeyFilter .null = .null := by
  refine ⟨fun kvs => rfl, ?_, ?_, fun _ => rfl, fun _ => rfl, fun _ => rfl,
    fun _ => rfl, fun _ => rfl, rfl⟩
  · intro l hne hgate
    have hempty : l.isEmpty = false := by
      cases l with
      | nil => exact absurd rfl hne
      | cons a l => rfl
    simp [perKeyFilter, filter_tiles_by_day_from_earliest, hempty, hgate]
  · intro l hgate
    simp [perKeyFilter, hgate]

/-- C8 witness: a one-key mapping whose list passes the gate is filtered
exactly like the top-level sequence case. -/
theorem dict_case_per_key_spec_witness :
    ([PyVal.dict [("date", PyVal.str "2020-01-01")]] ≠ ([] : List PyVal)) ∧
    sampleGate [PyVal.dict [("date", PyVal.str "2020-01-01")]] = true ∧
    perKeyFilter (.list [PyVal.dict [("date", PyVal.str "2020-01-01")]]) =
      filter_tiles_by_day_from_earliest
        (.list [PyVal.dict [("date", PyVal.str "2020-01-01")]]) := by
  refine ⟨by simp, by rfl, ?_⟩
  exact dict_case_per_key_spec.2.1 [PyVal.dict [("date", PyVal.str "2020-01-01")]]
    (by simp) rfl

lemma localizeList_length (l : List PyVal) :
    (localizeList l).length = l.length := by
  induction l with
  | nil => rfl
  | cons v vs ih => simp [localizeList, ih]

lemma localizeDict_keys (kvs : List (String × PyVal)) :
    (localizeDict kvs).map Prod.fst = kvs.map Prod.fst := by
  induction kvs with
  | nil => rfl
  | cons kv kvs ih =>
    obtain ⟨k, v⟩ := kv
    simp [localizeDict, ih]

lemma localizeDict_length (kvs : List (String × PyVal)) :
    (localizeDict kvs).length = kvs.length := by
  induction kvs with
  | nil => rfl
  | cons kv kvs ih =>
    obtain ⟨k, v⟩ := kv
    simp [localizeDict, ih]

/-- C3 counterexample: the claim's example `0.005 → "0"` fails on the
code.  The binary64 value the Python literal `0.005` denotes lies
strictly above 1/200 (see `dbl0005_near`), so `f"{0.005:.2f}"` is
`"0.01"` and the encoder yields `"0,01"`, not `"0"`. -/
theorem localize_0005_counterexample :
    localize_decimals_for_de (.float dbl0005) = .str "0,01" ∧
    PyVal.str "0,01" ≠ .str "0" :=
  ⟨rfl, by simp⟩

/-- C3 (amended): every numeric leaf, at any nesting depth, is replaced
by the string obtained by two-decimal correctly-rounded formatting of its
binary64 value, stripping trailing zeros and a trailing separator, with a
comma as decimal separator (`deNumberString`): `5.83 → "5,83"`, the float
`10.0` and the int `10 → "10"`; but `0.005 → "0,01"` (not `"0"`), because
the binary64 nearest 0.005 exceeds 1/200, so two-decimal rounding of the
actual float value rounds up. -/
theorem localize_numeric_leaves :
    (∀ d, localize_decimals_for_de (.float d) = .str (deNumberString d)) ∧
    (∀ n : ℤ, localize_decimals_for_de (.int n) = .str (deNumberString ⟨n, 0⟩)) ∧
    (∀ k d, localize_decimals_for_de (.dict [(k, .list [.float d])]) =
      .dict [(k, .list [.str (deNumberString d)])]) ∧
    localize_decimals_for_de (.float dbl583) = .str "5,83" ∧
    localize_decimals_for_de (.float ⟨10, 0⟩) = .str "10" ∧
    localize_decimals_for_de (.int 10) = .str "10" ∧
    localize_decimals_for_de (.float dbl0005) = .str "0,01" ∧
    localize_decimals_for_de
      (.dict [("a", .list [.float dbl583, .dict [("b", .int 10)]])]) =
      .dict [("a", .list [.str "5,83", .dict [("b", .str "10")]])] :=
  ⟨fun _ => rfl, fun _ => rfl, fun _ _ => rfl, rfl, rfl, rfl, rfl, rfl⟩

/-- C4 counterexample: Python `bool` is a subclass of `int`, so `True` is
caught by `isinstance(obj, (int, float))` and is re-encoded as the string
`"1"` — booleans do NOT pass through unchanged. -/
theorem localize_bool_counterexample :
    localize_decimals_for_de (.bool true) = .str "1" ∧
    PyVal.str "1" ≠ .bool true :=
  ⟨rfl, by simp⟩

/-- C4 (amended): text and `null` scalars pass through unchanged and
container shape is preserved — a mapping maps to a mapping with the same
keys in the same order, a sequence to a sequence of the same length — but
booleans, being `int` subclasses in Python, are formatted as numbers:
`True → "1"` and `False → "0"`. -/
theorem localize_shape_and_scalars (s : String) (kvs : List (String × PyVal))
    (l : List PyVal) :
    localize_decimals_for_de (.str s) = .str s ∧
    localize_decimals_for_de .null = .null ∧
    localize_decimals_for_de (.bool true) = .str "1" ∧
    localize_decimals_for_de (.bool false) = .str "0" ∧
    localize_decimals_for_de (.dict kvs) = .dict (localizeDict kvs) ∧
    (localizeDict kvs).map Prod.fst = kvs.map Prod.fst ∧
    (localizeDict kvs).length = kvs.length ∧
    localize_decimals_for_de (.list l) = .list (localizeList l) ∧
    (localizeList l).length = l.length :=
  ⟨rfl, rfl, rfl, rfl, rfl, localizeDict_keys kvs, localizeDict_length kvs,
   rfl, localizeList_length l⟩
